import Mathlib

/-!
Verification of the template project's testable core: the string utilities
(`capitalize`, `is_valid_identifier`), the configuration model (`Config`),
and the command dispatcher of the CLI (`Init` / `Run` / `Status`).

Strings are modelled as `List Char` (Lean `Char` is a Unicode scalar value,
exactly like Rust `char`). The Rust standard library character
classification and case-mapping methods (`char::is_alphabetic`,
`char::is_numeric`, `char::is_alphanumeric`, `char::to_uppercase`) are
modelled by concrete tables that agree with the Unicode character database
on every code point used in this development (ASCII, the Latin-1
Supplement letters, a handful of Greek letters, and the CJK Unified
Ideographs block); all code points outside those ranges are classified as
non-alphabetic and map to themselves under uppercasing.  Every theorem
below either quantifies structurally (independent of the tables) or
evaluates the tables only at code points inside the faithful ranges.
-/

/-- Conversion of a Lean string literal to the `List Char` string model. -/
def str (s : String) : List Char :=
  s.toList

/-- Models Rust `char::is_alphabetic` (the Unicode `Alphabetic` property),
restricted to the code points used in this development: ASCII letters,
the Latin-1 Supplement letters (including U+00AA, U+00B5, U+00BA and the
ranges U+00C0..U+00D6, U+00D8..U+00F6, U+00F8..U+00FF), U+0178, the Greek
letters U+0390, U+0399, U+039C, U+03A5, U+03B0, and the CJK Unified
Ideographs U+4E00..U+9FFF.  Combining marks such as U+0301 and U+0308 are
not `Alphabetic` in Unicode and are correctly classified as false here. -/
def is_alphabetic (c : Char) : Bool :=
  decide ((0x41 ≤ c.toNat ∧ c.toNat ≤ 0x5A) ∨ (0x61 ≤ c.toNat ∧ c.toNat ≤ 0x7A)
    ∨ c.toNat = 0xAA ∨ c.toNat = 0xB5 ∨ c.toNat = 0xBA
    ∨ (0xC0 ≤ c.toNat ∧ c.toNat ≤ 0xD6) ∨ (0xD8 ≤ c.toNat ∧ c.toNat ≤ 0xF6)
    ∨ (0xF8 ≤ c.toNat ∧ c.toNat ≤ 0xFF)
    ∨ c.toNat = 0x178
    ∨ c.toNat = 0x390 ∨ c.toNat = 0x399 ∨ c.toNat = 0x39C
    ∨ c.toNat = 0x3A5 ∨ c.toNat = 0x3B0
    ∨ (0x4E00 ≤ c.toNat ∧ c.toNat ≤ 0x9FFF))

/-- Models Rust `char::is_numeric` (Unicode general categories Nd, Nl, No),
restricted to the ASCII digits; no other numeric code point occurs in this
development. -/
def is_numeric (c : Char) : Bool :=
  decide (0x30 ≤ c.toNat ∧ c.toNat ≤ 0x39)

/-- Models Rust `char::is_alphanumeric`, which is defined in the standard
library as `is_alphabetic || is_numeric`. -/
def is_alphanumeric (c : Char) : Bool :=
  is_alphabetic c || is_numeric c

/-- Models Rust `char::to_uppercase` (the full Unicode uppercase mapping,
including the multi-character expansions of `SpecialCasing.txt`), on the
code points used in this development: ASCII lowercase letters, the Latin-1
lowercase letters (with the special cases µ → U+039C, ß → "SS",
ÿ → U+0178), and the Greek letters U+0390 → U+0399 U+0308 U+0301 and
U+03B0 → U+03A5 U+0308 U+0301; every other code point (in particular every
uppercase or caseless character used here) maps to itself. -/
def to_uppercase (c : Char) : List Char :=
  if 0x61 ≤ c.toNat ∧ c.toNat ≤ 0x7A then [Char.ofNat (c.toNat - 0x20)]
  else if c.toNat = 0xB5 then [Char.ofNat 0x39C]
  else if c.toNat = 0xDF then [Char.ofNat 0x53, Char.ofNat 0x53]
  else if c.toNat = 0xFF then [Char.ofNat 0x178]
  else if (0xE0 ≤ c.toNat ∧ c.toNat ≤ 0xF6) ∨ (0xF8 ≤ c.toNat ∧ c.toNat ≤ 0xFE) then
    [Char.ofNat (c.toNat - 0x20)]
  else if c.toNat = 0x390 then [Char.ofNat 0x399, Char.ofNat 0x308, Char.ofNat 0x301]
  else if c.toNat = 0x3B0 then [Char.ofNat 0x3A5, Char.ofNat 0x308, Char.ofNat 0x301]
  else [c]

/-- Embeds `capitalize` from
`libs/PROJECT_NAME_utils/src/string.rs`: the first character is replaced
by its (possibly multi-character) uppercase expansion and the remaining
characters are appended unchanged; the empty string maps to itself. -/
def capitalize (s : List Char) : List Char :=
  match s with
  | [] => []
  | first :: rest => to_uppercase first ++ rest

/-- Embeds `is_valid_identifier` from
`libs/PROJECT_NAME_utils/src/string.rs`: non-empty, first character
alphabetic, and every character alphanumeric or an underscore.  The
`headD` default mirrors the `unwrap` in the source, which is unreachable
because of the preceding emptiness test. -/
def is_valid_identifier (s : List Char) : Bool :=
  !s.isEmpty
    && is_alphabetic (s.headD 'a')
    && s.all (fun c => is_alphanumeric c || c == '_')

theorem to_uppercase_ne_nil (c : Char) : to_uppercase c ≠ [] := by
  unfold to_uppercase
  repeat' split
  all_goals simp

theorem valid_cons_iff (c : Char) (cs : List Char) :
    is_valid_identifier (c :: cs) = true ↔
      (is_alphabetic c = true ∧ ∀ d ∈ c :: cs, is_alphanumeric d = true ∨ d = '_') := by
  simp [is_valid_identifier, List.all_eq_true]

/-- Claim C1: `is_valid_identifier` returns true exactly on the non-empty
strings whose first character is alphabetic and whose every character is
alphanumeric or an underscore; it accepts "foo", "foo_bar", "Foo123" and
rejects "123foo", "foo-bar" and the empty string. -/
theorem identifier_validation_contract :
    is_valid_identifier [] = false
    ∧ (∀ (c : Char) (cs : List Char),
        is_valid_identifier (c :: cs) = true ↔
          (is_alphabetic c = true ∧ ∀ d ∈ c :: cs, is_alphanumeric d = true ∨ d = '_'))
    ∧ is_valid_identifier (str ("foo")) = true
    ∧ is_valid_identifier (str ("foo_bar")) = true
    ∧ is_valid_identifier (str ("Foo123")) = true
    ∧ is_valid_identifier (str ("123foo")) = false
    ∧ is_valid_identifier (str ("foo-bar")) = false :=
  ⟨rfl, valid_cons_iff, by decide, by decide, by decide, by decide, by decide⟩

/-- Claim C1 witness: the characterization applied at the concrete string
"foo". -/
theorem identifier_validation_contract_witness :
    is_valid_identifier ('f' :: str ("oo")) = true :=
  (identifier_validation_contract.2.1 'f' (str ("oo"))).mpr (by decide)

/-- Claim C2: `capitalize` maps the empty string to the empty string, and a
non-empty string to the uppercase expansion of its first character followed
by the remaining characters unchanged; only the first character's expansion
can change the character count, and the suffix after it is preserved
exactly. -/
theorem capitalize_contract :
    capitalize [] = []
    ∧ ∀ (c : Char) (cs : List Char),
        capitalize (c :: cs) = to_uppercase c ++ cs
        ∧ (capitalize (c :: cs)).drop (to_uppercase c).length = cs
        ∧ (capitalize (c :: cs)).length = (to_uppercase c).length + cs.length := by
  refine ⟨rfl, fun c cs => ⟨rfl, ?_, ?_⟩⟩
  · simp [capitalize]
  · simp [capitalize]

/-- Claim C5: when the uppercase expansion of the first character is that
character itself (the first character is already uppercase under the
Unicode case mapping), `capitalize` is the identity. -/
theorem capitalize_fixed_on_uppercase :
    ∀ (c : Char) (cs : List Char), to_uppercase c = [c] →
      capitalize (c :: cs) = c :: cs := by
  intro c cs h
  simp [capitalize, h]

/-- Claim C5 witness: `capitalize` leaves "Abc" unchanged. -/
theorem capitalize_fixed_on_uppercase_witness :
    to_uppercase 'A' = ['A'] ∧ capitalize ('A' :: str ("bc")) = 'A' :: str ("bc") :=
  ⟨by decide, capitalize_fixed_on_uppercase 'A' (str ("bc")) (by decide)⟩

/-- Claim C9 counterexample: validity of an identifier is not preserved by
`capitalize`.  The single-character string "ΐ" (U+0390) is a valid
identifier, but its capitalization "Ϊ́" (U+0399 U+0308 U+0301) contains the
combining marks U+0308 and U+0301, which are neither alphanumeric nor the
underscore, so the capitalized string is rejected. -/
theorem capitalize_breaks_validity :
    is_valid_identifier (str ("ΐ")) = true
    ∧ is_valid_identifier (capitalize (str ("ΐ"))) = false := by
  constructor
  · decide
  · decide

/-- Claim C9 (amended): if `s` is a valid identifier and every character of
the uppercase expansion of its first character is alphabetic, then
`capitalize s` is again a valid identifier.  (The extra hypothesis is
needed: multi-character expansions may contain non-alphanumeric combining
marks, as witnessed by U+0390.) -/
theorem capitalize_preserves_validity_amended :
    ∀ (c : Char) (cs : List Char),
      is_valid_identifier (c :: cs) = true →
      (∀ d ∈ to_uppercase c, is_alphabetic d = true) →
      is_valid_identifier (capitalize (c :: cs)) = true := by
  intro c cs hv hu
  obtain ⟨hc, hall⟩ := (valid_cons_iff c cs).mp hv
  cases hu' : to_uppercase c with
  | nil => exact absurd hu' (to_uppercase_ne_nil c)
  | cons d ds =>
    have hcap : capitalize (c :: cs) = d :: (ds ++ cs) := by
      simp [capitalize, hu']
    rw [hcap]
    refine (valid_cons_iff d (ds ++ cs)).mpr ⟨?_, ?_⟩
    · exact hu d (by rw [hu']; exact List.mem_cons_self d ds)
    · intro e he
      rcases List.mem_cons.mp he with rfl | he
      · have ha := hu e (by rw [hu']; exact List.mem_cons_self e ds)
        exact Or.inl (by simp [is_alphanumeric, ha])
      · rcases List.mem_append.mp he with hin | hin
        · have ha := hu e (by rw [hu']; exact List.mem_cons_of_mem d hin)
          exact Or.inl (by simp [is_alphanumeric, ha])
        · exact hall e (List.mem_cons_of_mem c hin)

/-- Claim C9 (amended) witness: the amended preservation applied to the
valid identifier "foo", whose first character expands to the alphabetic
"F". -/
theorem capitalize_preserves_validity_amended_witness :
    is_valid_identifier (capitalize ('f' :: str ("oo"))) = true :=
  capitalize_preserves_validity_amended 'f' (str ("oo")) (by decide) (by decide)

/-- Claim C10: the character classes of `is_valid_identifier` are Unicode
classes, not ASCII-only: "héllo" (with U+00E9) and "名前" (CJK ideographs)
are accepted, and those strings do contain non-ASCII characters. -/
theorem identifier_accepts_unicode :
    is_valid_identifier (str ("héllo")) = true
    ∧ is_valid_identifier (str ("名前")) = true
    ∧ (str ("héllo")).any (fun c => decide (128 ≤ c.toNat)) = true
    ∧ (str ("名前")).all (fun c => decide (128 ≤ c.toNat)) = true := by
  refine ⟨by decide, by decide, by decide, by decide⟩

/-- Whether the string `p` is a prefix of the string `s`, by character
comparison. -/
def strStartsWith : List Char → List Char → Bool
  | _, [] => true
  | [], _ :: _ => false
  | c :: cs, d :: ds => c == d && strStartsWith cs ds

/-- Whether the string `m` occurs contiguously inside the string `s`. -/
def strContains : List Char → List Char → Bool
  | [], m => m.isEmpty
  | c :: cs, m => strStartsWith (c :: cs) m || strContains cs m

theorem strStartsWith_append (m post : List Char) :
    strStartsWith (m ++ post) m = true := by
  induction m with
  | nil =>
    cases post with
    | nil => rfl
    | cons c cs => rfl
  | cons c cs ih => simp [strStartsWith, ih]

theorem strContains_mid (pre m post : List Char) :
    strContains (pre ++ (m ++ post)) m = true := by
  induction pre with
  | nil =>
    cases m with
    | nil =>
      cases post with
      | nil => rfl
      | cons c cs => simp [strContains, strStartsWith]
    | cons c cs =>
      have h := strStartsWith_append (c :: cs) post
      simp only [List.nil_append, List.cons_append, strContains, Bool.or_eq_true]
      exact Or.inl (by simpa using h)
  | cons p ps ih => simp [strContains, ih]

theorem strContains_append_right (pre m : List Char) :
    strContains (pre ++ m) m = true := by
  have h := strContains_mid pre m []
  simpa using h

/-- Embeds `Config` from `libs/PROJECT_NAME_core/src/types.rs`: application
name, debug flag and maximum number of concurrent operations. -/
structure Config where
  name : List Char
  debug : Bool
  max_concurrent : Nat

/-- Embeds `impl Default for Config`: the program identifier (the template
placeholder written with escaped braces), debug off, four concurrent
operations. -/
def Config.default : Config :=
  { name := str ("\x7b\x7bPROJECT_NAME\x7d\x7d")
    debug := false
    max_concurrent := 4 }

/-- Embeds `AppState` from `libs/PROJECT_NAME_core/src/types.rs`. -/
structure AppState where
  config : Config
  active_operations : Nat

/-- Embeds `AppState::new`: wraps a configuration with an active-operation
counter initialized to zero. -/
def AppState.new (config : Config) : AppState :=
  { config := config, active_operations := 0 }

/-- Embeds the configuration-loading branch of `main` (lines 55-60 of
`apps/PROJECT_NAME_cli/src/main.rs`): whether or not a configuration path
is supplied, the default configuration is returned (the real application
additionally logs the path; loading from the file is left unimplemented in
the source). -/
def loadConfig (configPath : Option (List Char)) : Config :=
  match configPath with
  | some _ => Config.default
  | none => Config.default

/-- One line of program output: an `[INFO]` log line (`logging::info`) or a
standard-output line (`println`). -/
inductive Output where
  | info (msg : List Char)
  | line (msg : List Char)
deriving DecidableEq

/-- The result of handling one command: the output lines produced, in
order, and the error message if the command bailed. -/
structure CmdResult where
  outputs : List Output
  err : Option (List Char)
deriving DecidableEq

/-- The commands of the CLI (`enum Commands` in
`apps/PROJECT_NAME_cli/src/main.rs`). -/
inductive Commands where
  | Init (name : Option (List Char))
  | Run (input : Option (List Char))
  | Status
deriving DecidableEq

/-- The text of a message line, whichever sink it went to. -/
def outputMessage : Output → List Char
  | .info m => m
  | .line m => m

/-- The standard-output lines of a command result (the `println` lines,
excluding `[INFO]` log lines). -/
def printlnLines (r : CmdResult) : List (List Char) :=
  r.outputs.filterMap fun o =>
    match o with
    | .line m => some m
    | .info _ => none

/-- The messages of all output lines of a command result. -/
def outputMessages (r : CmdResult) : List (List Char) :=
  r.outputs.map outputMessage

/-- Name resolution of the `Init` command:
`name.unwrap_or_else(|| "my_project".to_string())`. -/
def resolveName (name : Option (List Char)) : List Char :=
  name.getD (str ("my_project"))

/-- Decimal rendering of a natural number, as Rust's `Display` for an
unsigned integer produces it. -/
def natRepr (n : Nat) : List Char :=
  (Nat.repr n).toList

/-- Rendering of a boolean, as Rust's `Display` for `bool` produces it. -/
def showBool (b : Bool) : List Char :=
  if b then str ("true") else str ("false")

/-- Rendering of a configuration, as the derived `Debug` implementation
formats it:
`Config \x7b name: "...", debug: ..., max_concurrent: ... \x7d`. -/
def showConfig (c : Config) : List Char :=
  (str ("Config \x7b name: \"") ++ c.name ++ str ("\", debug: ")
      ++ showBool c.debug ++ str (", "))
    ++ ((str ("max_concurrent: ") ++ natRepr c.max_concurrent) ++ str (" \x7d"))

/-- Embeds the `Commands::Init` arm of `main` (lines 67-77): resolve the
name, capitalize it, log the initialization line, then bail with an error
message naming the original resolved name when validation fails, and
otherwise print the success line naming the capitalized name. -/
def handleInit (name : Option (List Char)) : CmdResult :=
  let project_name := resolveName name
  let capitalized := capitalize project_name
  let logLine := Output.info (str ("Initializing project: ") ++ capitalized)
  if !is_valid_identifier project_name then
    { outputs := [logLine]
      err := some (str ("Invalid project name: ") ++ project_name) }
  else
    { outputs := [logLine,
        Output.line (str ("Project \x27") ++ (capitalized
          ++ str ("\x27 initialized successfully!")))]
      err := none }

/-- Embeds the `Commands::Run` arm of `main` (lines 78-86). -/
def handleRun (input : Option (List Char)) : CmdResult :=
  let logLine := Output.info (str ("Running application"))
  let body :=
    match input with
    | some input_file => Output.line (str ("Processing input file: ") ++ input_file)
    | none => Output.line (str ("Running with default configuration"))
  { outputs := [logLine, body,
      Output.line (str ("Application completed successfully!"))]
    err := none }

/-- Embeds the `Commands::Status` arm of `main` (lines 87-92): prints the
header, the crate version, the debug flag and the configuration; never
fails and reads but never writes the configuration. -/
def handleStatus (debug : Bool) (version : List Char) (config : Config) : CmdResult :=
  { outputs := [
      Output.line (str ("\x7b\x7bPROJECT_NAME\x7d\x7d Status:")),
      Output.line (str ("  Version: ") ++ version),
      Output.line (str ("  Debug: ") ++ showBool debug),
      Output.line (str ("  Config: ") ++ showConfig config)]
    err := none }

/-- Embeds the command dispatch of `main` (the `match cli.command` at lines
66-93): each command is handled independently. -/
def handleCommand (cmd : Commands) (debug : Bool) (config : Config)
    (version : List Char) : CmdResult :=
  match cmd with
  | .Init name => handleInit name
  | .Run input => handleRun input
  | .Status => handleStatus debug version config

theorem handleInit_invalid (name : Option (List Char))
    (h : is_valid_identifier (resolveName name) = false) :
    handleInit name =
      { outputs := [Output.info (str ("Initializing project: ")
          ++ capitalize (resolveName name))]
        err := some (str ("Invalid project name: ") ++ resolveName name) } := by
  simp [handleInit, h]

theorem handleInit_valid (name : Option (List Char))
    (h : is_valid_identifier (resolveName name) = true) :
    handleInit name =
      { outputs := [Output.info (str ("Initializing project: ")
            ++ capitalize (resolveName name)),
          Output.line (str ("Project \x27") ++ (capitalize (resolveName name)
            ++ str ("\x27 initialized successfully!")))]
        err := none } := by
  simp [handleInit, h]

/-- Claim C3: the `Init` command fails exactly when `is_valid_identifier`
rejects the resolved name; on failure the error message names the original
resolved name and no success line is printed, and on success exactly one
success line is printed and it contains the capitalized name. -/
theorem init_all_or_nothing :
    ∀ (name : Option (List Char)) (debug : Bool) (config : Config)
      (version : List Char),
      ((handleCommand (Commands.Init name) debug config version).err = none
          ↔ is_valid_identifier (resolveName name) = true)
      ∧ (is_valid_identifier (resolveName name) = false →
          (handleCommand (Commands.Init name) debug config version).err
              = some (str ("Invalid project name: ") ++ resolveName name)
          ∧ strContains (str ("Invalid project name: ") ++ resolveName name)
              (resolveName name) = true
          ∧ printlnLines (handleCommand (Commands.Init name) debug config version) = [])
      ∧ (is_valid_identifier (resolveName name) = true →
          printlnLines (handleCommand (Commands.Init name) debug config version)
              = [str ("Project \x27") ++ (capitalize (resolveName name)
                  ++ str ("\x27 initialized successfully!"))]
          ∧ strContains (str ("Project \x27") ++ (capitalize (resolveName name)
                  ++ str ("\x27 initialized successfully!")))
              (capitalize (resolveName name)) = true) := by
  intro name debug config version
  have hc : handleCommand (Commands.Init name) debug config version
      = handleInit name := rfl
  cases h : is_valid_identifier (resolveName name) with
  | false =>
    rw [hc, handleInit_invalid name h]
    exact ⟨by simp, fun _ => ⟨rfl, strContains_append_right _ _, by simp [printlnLines]⟩,
      fun hy => by simp [h] at hy⟩
  | true =>
    rw [hc, handleInit_valid name h]
    exact ⟨by simp, fun hy => by simp [h] at hy,
      fun _ => ⟨by simp [printlnLines], strContains_mid _ _ _⟩⟩

/-- Claim C3 witness: the scenario name "my-app" fails validation, the
error message names it, and no success line is printed. -/
theorem init_all_or_nothing_witness :
    (handleCommand (Commands.Init (some (str ("my-app")))) false Config.default
        (str ("0.1.0"))).err
      = some (str ("Invalid project name: ") ++ str ("my-app"))
    ∧ printlnLines (handleCommand (Commands.Init (some (str ("my-app")))) false
        Config.default (str ("0.1.0"))) = [] :=
  have h := (init_all_or_nothing (some (str ("my-app"))) false Config.default
      (str ("0.1.0"))).2.1 (by decide)
  ⟨h.1, h.2.2⟩

/-- Claim C4: the verdict of `Init` is decided by `is_valid_identifier` on
the original resolved name, while every displayed message (initialization
log line and success line) contains the capitalized name; at the concrete
name "ΐ1" the original is valid though its capitalization is not, and the
command succeeds. -/
theorem init_validates_original_name :
    (∀ pn : List Char,
      ((handleInit (some pn)).err = none ↔ is_valid_identifier pn = true)
      ∧ (outputMessages (handleInit (some pn))).all
          (fun m => strContains m (capitalize pn)) = true)
    ∧ is_valid_identifier (str ("ΐ1")) = true
    ∧ is_valid_identifier (capitalize (str ("ΐ1"))) = false
    ∧ (handleInit (some (str ("ΐ1")))).err = none := by
  refine ⟨fun pn => ?_, by decide, by decide, by decide⟩
  cases h : is_valid_identifier pn with
  | false =>
    have h' : is_valid_identifier (resolveName (some pn)) = false := h
    rw [handleInit_invalid (some pn) h']
    refine ⟨by simp [h], ?_⟩
    simp only [outputMessages, outputMessage, List.map_cons, List.map_nil,
      List.all_cons, List.all_nil, Bool.and_true]
    exact strContains_append_right _ _
  | true =>
    have h' : is_valid_identifier (resolveName (some pn)) = true := h
    rw [handleInit_valid (some pn) h']
    refine ⟨by simp [h], ?_⟩
    simp only [outputMessages, outputMessage, List.map_cons, List.map_nil,
      List.all_cons, List.all_nil, Bool.and_true, Bool.and_eq_true]
    exact ⟨strContains_append_right _ _, strContains_mid _ _ _⟩

/-- Claim C4 witness: at the valid name "foo" the command succeeds. -/
theorem init_validates_original_name_witness :
    (handleInit (some (str ("foo")))).err = none :=
  ((init_validates_original_name.1 (str ("foo"))).1).mpr (by decide)

/-- Claim C6: with no name supplied, `Init` resolves to the fallback
"my_project", which passes validation, and the command succeeds printing
the success line with the capitalized fallback name. -/
theorem init_fallback_succeeds :
    resolveName none = str ("my_project")
    ∧ is_valid_identifier (str ("my_project")) = true
    ∧ (handleInit none).err = none
    ∧ printlnLines (handleInit none)
        = [str ("Project \x27My_project\x27 initialized successfully!")]
    ∧ strContains (str ("Project \x27My_project\x27 initialized successfully!"))
        (capitalize (str ("my_project"))) = true :=
  ⟨rfl, by decide, by decide, by decide, by decide⟩

/-- Claim C7: the `Status` command never fails, is a pure read of the
configuration (the embedding returns output only and leaves every
configuration value untouched), and its output reports the version, the
debug flag as supplied, and the configuration rendering, which always
contains the `max_concurrent` value — in particular `max_concurrent: 4`
for the default configuration. -/
theorem status_always_succeeds :
    ∀ (debug : Bool) (config : Config) (version : List Char),
      (handleCommand Commands.Status debug config version).err = none
      ∧ (handleCommand Commands.Status debug config version).outputs
          = [Output.line (str ("\x7b\x7bPROJECT_NAME\x7d\x7d Status:")),
             Output.line (str ("  Version: ") ++ version),
             Output.line (str ("  Debug: ") ++ showBool debug),
             Output.line (str ("  Config: ") ++ showConfig config)]
      ∧ strContains (showConfig config)
          (str ("max_concurrent: ") ++ natRepr config.max_concurrent) = true
      ∧ strContains (showConfig Config.default) (str ("max_concurrent: 4")) = true := by
  intro debug config version
  exact ⟨rfl, rfl, strContains_mid _ _ _, by decide⟩

/-- Claim C8: the default configuration has the program identifier as its
name, debug off and `max_concurrent = 4`, which satisfies the invariant
`max_concurrent >= 1`; both branches of configuration loading return the
default, so every configuration used during an invocation satisfies the
invariant. -/
theorem config_default_invariant :
    Config.default.name = str ("\x7b\x7bPROJECT_NAME\x7d\x7d")
    ∧ Config.default.debug = false
    ∧ Config.default.max_concurrent = 4
    ∧ 1 ≤ Config.default.max_concurrent
    ∧ (∀ configPath : Option (List Char),
        loadConfig configPath = Config.default
        ∧ 1 ≤ (loadConfig configPath).max_concurrent) := by
  refine ⟨rfl, rfl, rfl, by decide, fun p => ?_⟩
  cases p with
  | none => exact ⟨rfl, by decide⟩
  | some v => exact ⟨rfl, by simp [loadConfig, Config.default]⟩
